import Mathlib

/-
Verification of the MixAIService query-to-answer pipeline engine.

The definitions below are a shallow embedding of the orchestration core:
PipelineContext (src/app/components/pipelines/core/pipeline_context.py),
the chat steps (src/app/components/pipelines/chat/*.py and
src/app/model_components/pipelines/chat/cache_lookup.py),
the error-correction sub-pipeline
(src/app/components/pipelines/chat/error_correction_pipeline/*.py),
the execution tracker (src/utils/helpers/query_exec_tracker.py) and the
GenerateChatPipeline orchestrator
(src/app/components/pipelines/chat/generate_chat_pipeline.py).

Parts of the repository that the orchestrator imports but whose sources are
not shipped (the core Pipeline executor, Cache, CodeCleaning, CodeExecution,
CachePopulation, ResultParsing, OutputValidator, Memory, the connector base
classes and the input records) are modelled from the specification; each such
definition carries a doc comment starting with the words Modelled from the
spec.

Python-level conventions used throughout the embedding:
- Python values flowing through the pipeline are the inductive type Val;
  Python None is Val.pynone, prompt objects are the pXxx constructors, and
  the executed result dict with keys type and value is Val.vresult.
- Python dicts with string keys are association lists (insertion order kept,
  updates in place), see dictGet and dictSet.
- Exceptions are the inductive type Exc; raising is Except.error, and since
  Python exceptions leave prior mutations in place, the error branch carries
  the run state at the moment of the raise.
-/

namespace MixAI

/-- Exception kinds of the core, from src/utils/exceptions.py: the classes
InvalidConfigError, InvalidLLMOutputType and ExecuteSQLQueryNotUsed are
sibling subclasses of AIBaseError; every other exception is collapsed into
the generic constructor. -/
inductive Exc where
  | invalidConfigError (msg : String)
  | invalidLLMOutputType (msg : String)
  | executeSQLQueryNotUsed (msg : String)
  | generic (msg : String)
deriving DecidableEq

/-- Rendering str(e) of an exception, used by the failure string of the
three entry points. -/
def Exc.message : Exc → String
  | .invalidConfigError m => m
  | .invalidLLMOutputType m => m
  | .executeSQLQueryNotUsed m => m
  | .generic m => m

/-- Rendering of traceback.format_exc() at the moment exception e is being
handled (error_prompt_generation.py computes it inside get_prompt). -/
def format_exc (e : Exc) : String :=
  "Traceback (most recent call last): " ++ e.message

/-- Dynamically typed Python values that flow between pipeline steps and are
stored in intermediate_values. Prompt objects (the classes under
src/app/components/prompts) are the pXxx constructors; an executed result
dict with keys type and value is vresult; vcorr is the
ErrorCorrectionPipelineInput record (code plus exception) from
error_correction_pipeline_input.py. -/
inductive Val where
  | pynone
  | vbool (b : Bool)
  | vstr (s : String)
  | vresult (ty : String) (value : String)
  | vcorr (code : Val) (exception : Exc)
  | pGeneratePythonCode (lastCode : Val) (vizLib : String) (outputType : Val)
  | pGeneratePythonCodeWithSQL (lastCode : Val) (vizLib : String) (outputType : Val)
  | pCorrectError (code : Val) (error : String)
  | pCorrectOutputTypeError (code : Val) (error : String) (outputType : Val)
  | pCorrectExecuteSQLQueryUsageError (code : Val) (error : String)
deriving DecidableEq

/-- Python truthiness of a value: None and False and the empty string are
falsy, every object (prompts, result dicts, non-empty strings) is truthy. -/
def Val.truthy : Val → Bool
  | .pynone => false
  | .vbool b => b
  | .vstr s => !(s == "")
  | _ => true

/-- Lookup in a Python string-keyed dict (association list). -/
def dictGet (d : List (String × Val)) (k : String) : Option Val :=
  (d.find? (fun p => p.1 == k)).map (fun p => p.2)

/-- Write to a Python string-keyed dict: update in place when the key exists,
append otherwise (insertion order preserved). -/
def dictSet (d : List (String × Val)) (k : String) (v : Val) : List (String × Val) :=
  if d.any (fun p => p.1 == k) then
    d.map (fun p => if p.1 == k then (k, v) else p)
  else
    d ++ [(k, v)]

/-- Configuration fields of src/utils/schemas/df_config.py that the core
consults, with the source defaults. -/
structure Config where
  enable_cache : Bool := true
  use_error_correction_framework : Bool := true
  max_retries : Nat := 3
  direct_sql : Bool := false
  data_viz_library : String := ""
deriving DecidableEq

/-- Modelled from the spec: the data-source handles. The concrete
SQLConnector and PandasConnector classes are not in the sources; the spec
says direct-SQL mode requires that all sources share one SQL backend and
identical credentials, so an SQL connector is described by its datasource
and credentials, and a pandas connector by its sql_enabled flag. -/
inductive Connector where
  | sql (datasource : String) (credentials : String)
  | pandas (sql_enabled : Bool)
deriving DecidableEq

/-- Test for isinstance(df, SQLConnector). -/
def Connector.isSQL : Connector → Bool
  | .sql _ _ => true
  | _ => false

/-- Modelled from the spec: SQLConnector.equals, true when the two
connectors belong to the same datasource and carry the same credentials. -/
def Connector.equals : Connector → Connector → Bool
  | .sql d c, .sql d2 c2 => d == d2 && c == c2
  | _, _ => false

/-- Test for isinstance(df, PandasConnector) and df.sql_enabled. -/
def Connector.sqlEnabledPandas : Connector → Bool
  | .pandas b => b
  | _ => false

/-- Modelled from the spec: the Cache is a fingerprint-to-code store with
get and set (src/utils/helpers/cache.py is not shipped). -/
structure Cache where
  entries : List (String × String) := []
deriving DecidableEq

/-- Modelled from the spec: Cache.get returns the stored value or None. -/
def Cache.get (c : Cache) (k : String) : Option String :=
  (c.entries.find? (fun p => p.1 == k)).map (fun p => p.2)

/-- Modelled from the spec: Cache.set stores a value under a key
(last-writer-wins). -/
def Cache.set (c : Cache) (k : String) (v : String) : Cache :=
  { entries :=
      if c.entries.any (fun p => p.1 == k) then
        c.entries.map (fun p => if p.1 == k then (k, v) else p)
      else
        c.entries ++ [(k, v)] }

/-- Modelled from the spec: the Memory is the ordered conversation history;
each entry is a message together with its is-user flag
(src/utils/helpers/memory.py is not shipped). -/
abbrev Memory := List (String × Bool)

/-- Most recent user message of the memory, empty when there is none. -/
def lastUserQuery (m : Memory) : String :=
  m.foldl (fun acc p => if p.2 then p.1 else acc) ""

/-- Shared mutable state passed to every step, from pipeline_context.py.
The field shared_initial records the Python aliasing set up by the
constructor: when a non-empty initial_values dict is passed, the attribute
_initial_values and the attribute intermediate_values are the same dict
object, so writes into intermediate_values also mutate the snapshot that
reset_intermediate_values restores. -/
structure PipelineContext where
  dfs : List Connector
  config : Config
  memory : Memory
  cache : Option Cache
  intermediate_values : List (String × Val)
  shared_initial : Bool
deriving DecidableEq

/-- Constructor of PipelineContext: the cache attribute is present exactly
when config.enable_cache is set; intermediate_values starts as the
expression initial_values-or-empty, which aliases the provided dict when it
is truthy (non-empty) and is a fresh empty dict otherwise. -/
def PipelineContext.init (dfs : List Connector) (config : Config) (memory : Memory)
    (cache : Option Cache) (initial_values : Option (List (String × Val))) :
    PipelineContext :=
  { dfs := dfs
    config := config
    memory := memory
    cache := if config.enable_cache then some (cache.getD {}) else none
    intermediate_values :=
      match initial_values with
      | some l => if l.isEmpty then [] else l
      | none => []
    shared_initial :=
      match initial_values with
      | some l => !l.isEmpty
      | none => false }

/-- Method reset_intermediate_values: reassigns intermediate_values to the
expression initial-values-or-empty. When the constructor aliased a non-empty
initial dict, that object is the current (mutated) dict itself, so the
reassignment changes nothing; otherwise the result is a fresh empty dict. -/
def PipelineContext.reset_intermediate_values (ctx : PipelineContext) : PipelineContext :=
  if ctx.shared_initial then ctx else { ctx with intermediate_values := [] }

/-- Method get of PipelineContext: dict get with the default value of the
empty string. -/
def PipelineContext.get (ctx : PipelineContext) (key : String) : Val :=
  (dictGet ctx.intermediate_values key).getD (Val.vstr "")

/-- Method add of PipelineContext. -/
def PipelineContext.add (ctx : PipelineContext) (key : String) (v : Val) : PipelineContext :=
  { ctx with intermediate_values := dictSet ctx.intermediate_values key v }

/-- Method add_many of PipelineContext: dict.update, applied in order. -/
def PipelineContext.add_many (ctx : PipelineContext) (values : List (String × Val)) :
    PipelineContext :=
  { ctx with
    intermediate_values :=
      values.foldl (fun d p => dictSet d p.1 p.2) ctx.intermediate_values }

/-- One structured step record of the tracker (the claims only consult the
type and success fields of a record). -/
structure TrackStep where
  type : String
  success : Bool
deriving DecidableEq

/-- Execution tracker state, from src/utils/helpers/query_exec_tracker.py.
The field publish_count instruments how many times publish() was invoked;
the remote POST itself is an external side effect. -/
structure QueryExecTracker where
  started : Bool := false
  steps : List TrackStep := []
  success : Bool := false
  publish_count : Nat := 0
  last_log_id : Option Nat := none
deriving DecidableEq

/-- Method start_new_track: resets the per-run fields (steps, last_log_id);
the success flag and the publish instrumentation are not reset. -/
def QueryExecTracker.start_new_track (t : QueryExecTracker) : QueryExecTracker :=
  { t with started := true, steps := [], last_log_id := none }

/-- Method add_step: appends a structured step record. -/
def QueryExecTracker.add_step (t : QueryExecTracker) (s : TrackStep) : QueryExecTracker :=
  { t with steps := t.steps ++ [s] }

/-- Method publish: ships the summary to the collector when an API key is
configured and returns early otherwise; in both cases the body runs exactly
once and never raises (its network interaction sits inside a try block), so
the model counts the invocation. -/
def QueryExecTracker.publish (t : QueryExecTracker) : QueryExecTracker :=
  { t with publish_count := t.publish_count + 1 }

/-- External collaborators of the core, per the spec: the LLM client (its
generate_code call), the data connector executing generated code (returning
a result record with a type and a value, or raising), and the static code
sanitizer used by the CodeCleaning stage (whose source is not shipped; it
either returns the sanitized code or raises, which triggers the retry
path). -/
structure Collab where
  generate_code : Val → String
  exec_code : String → Except Exc (String × String)
  clean_code : String → Except Exc String

/-- World state threaded through a run: the context and the tracker are the
mutable Python objects; the remaining fields instrument externally
observable call counts (LLM code-generation calls, PromptGeneration and
CodeGenerator step invocations, the values received by CodeCleaning and the
prompts handed to the LLM, and the number of error-correction retries),
which the testable properties of the spec phrase as observable counters. -/
structure RunState where
  ctx : PipelineContext
  tracker : QueryExecTracker
  llm_calls : Nat := 0
  llm_prompts : List Val := []
  prompt_gen_calls : Nat := 0
  code_gen_calls : Nat := 0
  cleaning_inputs : List Val := []
  retry_invocations : Nat := 0
  last_error : Option String := none

/-- Step result record LogicUnitOutput with value, success and message
(message is Optional; the metadata field carries no information the claims
consult and is omitted). -/
structure LogicUnitOutput where
  value : Val
  success : Bool
  message : Option String
deriving DecidableEq

/-- Exception-or-value outcome of running step code against the mutable
world: Python leaves mutations in place when an exception is raised, so the
error branch carries the state at the moment of the raise. -/
abbrev PipeResult (α : Type) := Except (Exc × RunState) (RunState × α)

/-- One pipeline stage, per the spec section on Step (logic unit): an
optional skip predicate, the execute body (which may return a
LogicUnitOutput or a bare Python value such as None, hence the Option), an
optional on_failure bookkeeping hook and an optional on_retry hook driving
the error-correction sub-pipeline. -/
structure LogicUnit where
  name : String
  skip_if : Option (PipelineContext → Bool) := none
  execute : Collab → RunState → Val → PipeResult (Option LogicUnitOutput)
  on_failure : Option (RunState → Val → Exc → RunState) := none
  on_retry : Option (Collab → RunState → Val → Exc → PipeResult Val) := none

/-- Data passed to the next stage: the value of a LogicUnitOutput, or the
raw return (None) when the step did not wrap its result. -/
def stepValue (out : Option LogicUnitOutput) : Val :=
  match out with
  | some o => o.value
  | none => Val.pynone

/-- Modelled from the spec: the core Pipeline executor
(src/app/components/pipelines/core/pipeline.py is not shipped). Attempting
one stage: on success the extracted value and the unspent retry budget are
passed on; on exception the on_failure hook fires, a step without on_retry
propagates the exception, and otherwise the error-correction hook produces
a replacement value with which the same logical stage is re-attempted,
consuming one unit of the retry budget that is shared across the whole
run. -/
def runStep (collab : Collab) (step : LogicUnit) :
    Nat → RunState → Val → PipeResult (Val × Nat)
  | budget, st, v =>
    match step.execute collab st v with
    | .ok (st1, out) => .ok (st1, stepValue out, budget)
    | .error (e, stE) =>
      let st1 :=
        match step.on_failure with
        | some f => f stE v e
        | none => stE
      match step.on_retry with
      | none => .error (e, st1)
      | some r =>
        match budget with
        | 0 => .error (e, st1)
        | Nat.succ b =>
          match r collab st1 v e with
          | .ok (st2, v2) => runStep collab step b st2 v2
          | .error err => .error err

/-- Modelled from the spec: the Pipeline iterates its ordered steps; a stage
whose skip predicate holds passes the current value through unchanged, and
the retry budget is threaded through the stages (one attempt counter for
the run, not per stage). -/
def runSteps (collab : Collab) :
    List LogicUnit → RunState → Val → Nat → PipeResult (Val × Nat)
  | [], st, v, budget => .ok (st, v, budget)
  | step :: rest, st, v, budget =>
    if (match step.skip_if with | some p => p st.ctx | none => false) then
      runSteps collab rest st v budget
    else
      match runStep collab step budget st v with
      | .ok (st1, v1, budget1) => runSteps collab rest st1 v1 budget1
      | .error err => .error err

/-- Modelled from the spec: Pipeline.run initializes the shared retry budget
from config.max_retries and runs the stages in declaration order. -/
def Pipeline.run (collab : Collab) (steps : List LogicUnit) (st : RunState)
    (input : Val) : PipeResult Val :=
  match runSteps collab steps st input st.ctx.config.max_retries with
  | .ok (st1, v, _) => .ok (st1, v)
  | .error err => .error err

/-- Modelled from the spec: Cache.get_cache_key computes a deterministic
fingerprint of the query text, the relevant config and the conversation
state; it is realised as the most recent user query of the memory combined
with the cache-relevant config flag, which makes the fingerprint stable
across two consecutive runs of the same query. -/
def get_cache_key (ctx : PipelineContext) : String :=
  lastUserQuery ctx.memory ++ "#" ++ toString ctx.config.direct_sql

/-- Check _validate_direct_sql of validate_pipeline_input.py: under
direct_sql, either every source is an SQL connector equal to the first one,
or every source is an SQL-enabled pandas connector; otherwise
InvalidConfigError is raised. -/
def validate_direct_sql (config : Config) (dfs : List Connector) : Except Exc Bool :=
  if config.direct_sql then
    if dfs.all (fun df => df.isSQL && Connector.equals df ((dfs.head?).getD df)) ||
        dfs.all (fun df => df.sqlEnabledPandas) then
      .ok true
    else
      .error (Exc.invalidConfigError
        "Direct requires all Connector and they belong to same datasource and have same credentials")
  else
    .ok false

/-- Execute body of ValidatePipelineInput (validate_pipeline_input.py):
validates the direct-SQL configuration and passes the input through. -/
def ValidatePipelineInput.execute (st : RunState) (input : Val) :
    PipeResult (Option LogicUnitOutput) :=
  match validate_direct_sql st.ctx.config st.ctx.dfs with
  | .error e => .error (e, st)
  | .ok _ =>
    .ok (st, some { value := input, success := true, message := some "Input Validation Successful" })

/-- Execute body of CacheLookup (cache_lookup.py): when the cache is enabled,
present and holds a truthy entry under the computed key, the flag
found_in_cache is set to True and the cached code is returned as the step
value; otherwise the body falls through and returns the bare Python None. -/
def CacheLookup.execute (st : RunState) (_input : Val) :
    PipeResult (Option LogicUnitOutput) :=
  if st.ctx.config.enable_cache then
    match st.ctx.cache with
    | some cache =>
      match cache.get (get_cache_key st.ctx) with
      | some code =>
        if code == "" then
          .ok (st, none)
        else
          let st1 := { st with ctx := st.ctx.add "found_in_cache" (Val.vbool true) }
          .ok (st1, some { value := Val.vstr code, success := true, message := some "Cache Hit" })
      | none => .ok (st, none)
    | none => .ok (st, none)
  else
    .ok (st, none)

/-- Method get_chat_prompt of prompt_generation.py: matplotlib is the
default viz library, and the prompt class is the with-SQL variant exactly
under direct_sql. -/
def PromptGeneration.get_chat_prompt (ctx : PipelineContext) : Val :=
  let viz_lib := if ctx.config.data_viz_library == "" then "matplotlib"
    else ctx.config.data_viz_library
  let output_type := ctx.get "output_type"
  if ctx.config.direct_sql then
    Val.pGeneratePythonCodeWithSQL (ctx.get "last_code_generated") viz_lib output_type
  else
    Val.pGeneratePythonCode (ctx.get "last_code_generated") viz_lib output_type

/-- Execute body of PromptGeneration (prompt_generation.py); the counter
records that the stage body ran. -/
def PromptGeneration.execute (st : RunState) (_input : Val) :
    PipeResult (Option LogicUnitOutput) :=
  let prompt := PromptGeneration.get_chat_prompt st.ctx
  .ok ({ st with prompt_gen_calls := st.prompt_gen_calls + 1 },
    some { value := prompt, success := true, message := some "Prompt Generated Successfully" })

/-- Execute body of CodeGenerator (code_generator.py): one LLM
code-generation call on the received prompt, storing last_code_generated in
the context; the counters record the LLM call and the stage invocation, and
the prompt handed to the LLM is logged. -/
def CodeGenerator.execute (collab : Collab) (st : RunState) (input : Val) :
    PipeResult (Option LogicUnitOutput) :=
  let code := collab.generate_code input
  let st1 :=
    { st with
      ctx := st.ctx.add "last_code_generated" (Val.vstr code)
      llm_calls := st.llm_calls + 1
      code_gen_calls := st.code_gen_calls + 1
      llm_prompts := input :: st.llm_prompts }
  .ok (st1, some { value := Val.vstr code, success := true, message := some "Code Generated Successfully" })

/-- Modelled from the spec: CachePopulation (its source is not shipped)
writes the newly generated code into the Cache under the query fingerprint
and passes the code through. -/
def CachePopulation.execute (st : RunState) (input : Val) :
    PipeResult (Option LogicUnitOutput) :=
  let st1 :=
    match st.ctx.cache, input with
    | some c, Val.vstr code =>
      { st with ctx := { st.ctx with cache := some (c.set (get_cache_key st.ctx) code) } }
    | _, _ => st
  .ok (st1, some { value := input, success := true, message := some "Code Cached Successfully" })

/-- Modelled from the spec: CodeCleaning (its source is not shipped) runs
the static sanitizer collaborator over the received code; a sanitizer
exception propagates (triggering the retry path of the enclosing pipeline).
The received value is logged for observability. -/
def CodeCleaning.execute (collab : Collab) (st : RunState) (input : Val) :
    PipeResult (Option LogicUnitOutput) :=
  let st0 := { st with cleaning_inputs := input :: st.cleaning_inputs }
  match input with
  | Val.vstr code =>
    match collab.clean_code code with
    | .ok cleaned =>
      .ok (st0, some { value := Val.vstr cleaned, success := true, message := some "Code Cleaned Successfully" })
    | .error e => .error (e, st0)
  | v =>
    .ok (st0, some { value := v, success := true, message := some "Code Cleaned Successfully" })

/-- Modelled from the spec: CodeExecution (its source is not shipped) runs
the cleaned code against the bound data handles via the data-connector
collaborator, producing a result record or raising. -/
def CodeExecution.execute (collab : Collab) (st : RunState) (input : Val) :
    PipeResult (Option LogicUnitOutput) :=
  match input with
  | Val.vstr code =>
    match collab.exec_code code with
    | .ok tv =>
      .ok (st, some { value := Val.vresult tv.1 tv.2, success := true, message := some "Code Executed Successfully" })
    | .error e => .error (e, st)
  | _ => .error (Exc.generic "No code received to execute", st)

/-- Modelled from the spec: OutputValidator.validate (its source is not
shipped) checks the executed result record against the caller-requested
output_type and returns the verdict together with validation logs; an empty
or non-string requested type validates trivially. -/
def OutputValidator.validate (output_type : Val) (ty : String) (_value : String) :
    Bool × List String :=
  match output_type with
  | Val.vstr s =>
    if s == "" || s == ty then (true, [])
    else (false, ["The result does not match the expected output type " ++ s])
  | _ => (true, [])

/-- Execute body of ResultValidation (result_validation.py): success starts
False and message None; a non-None dict result is validated against the
requested output_type and recorded as last_result; the received result is
always returned unchanged as the step value and no exception is raised. -/
def ResultValidation.execute (st : RunState) (input : Val) :
    PipeResult (Option LogicUnitOutput) :=
  if input == Val.pynone then
    .ok (st, some { value := input, success := false, message := none })
  else
    match input with
    | Val.vresult ty value =>
      let verdict := OutputValidator.validate (st.ctx.get "output_type") ty value
      let st1 := { st with ctx := st.ctx.add "last_result" input }
      .ok (st1, some
        { value := input
          success := verdict.1
          message := if verdict.1 then some "Output Validation Successful" else some "Output Validation Failed" })
    | _ =>
      let st1 := { st with ctx := st.ctx.add "last_result" input }
      .ok (st1, some { value := input, success := false, message := none })

/-- Modelled from the spec: ResultParsing (its source is not shipped) shapes
the result into the public response envelope; the envelope carries the same
result record, so the step value is the received result. -/
def ResultParsing.execute (st : RunState) (input : Val) :
    PipeResult (Option LogicUnitOutput) :=
  .ok (st, some { value := input, success := true, message := some "Results parsed successfully" })

/-- Method get_prompt of error_prompt_generation.py: the correction prompt
is selected solely by the kind of the exception (InvalidLLMOutputType gives
the output-type correction prompt rendered with the requested output_type,
ExecuteSQLQueryNotUsed gives the execute-SQL-usage correction prompt, any
other exception the generic correction prompt), each rendered with the
offending code and the formatted traceback. -/
def ErrorPromptGeneration.get_prompt (ctx : PipelineContext) (e : Exc) (code : Val) : Val :=
  let traceback_errors := format_exc e
  match e with
  | Exc.invalidLLMOutputType _ =>
    Val.pCorrectOutputTypeError code traceback_errors (ctx.get "output_type")
  | Exc.executeSQLQueryNotUsed _ =>
    Val.pCorrectExecuteSQLQueryUsageError code traceback_errors
  | _ => Val.pCorrectError code traceback_errors

/-- Execute body of ErrorPromptGeneration (error_prompt_generation.py):
unpacks the ErrorCorrectionPipelineInput and emits the selected prompt. -/
def ErrorPromptGeneration.execute (st : RunState) (input : Val) :
    PipeResult (Option LogicUnitOutput) :=
  match input with
  | Val.vcorr code e =>
    let prompt := ErrorPromptGeneration.get_prompt st.ctx e code
    .ok (st, some { value := prompt, success := true, message := some "Prompt Generated Successfully" })
  | _ => .error (Exc.generic "ErrorPromptGeneration received no error-correction input", st)

/-- Failure hook on_code_execution_failure of generate_chat_pipeline.py:
records a failed CodeExecution step in the tracker. -/
def on_code_execution_failure (st : RunState) (_code : Val) (_e : Exc) : RunState :=
  { st with tracker := st.tracker.add_step { type := "CodeExecution", success := false } }

/-- Failure hook on_code_cleaning_failure of generate_chat_pipeline.py:
records a failed CodeCleaning step in the tracker. -/
def on_code_cleaning_failure (st : RunState) (_code : Val) (_e : Exc) : RunState :=
  { st with tracker := st.tracker.add_step { type := "CodeCleaning", success := false } }

/-- Steps of the ErrorCorrectionPipeline (error_correction_pipeline.py):
ErrorPromptGeneration, then CodeGenerator, then the same CodeCleaning stage
as the main pipeline; none of them carries a retry hook, so their
exceptions propagate. -/
def errorCorrectionSteps : List LogicUnit :=
  [ { name := "ErrorPromptGeneration", execute := fun _ st v => ErrorPromptGeneration.execute st v },
    { name := "CodeGenerator", execute := CodeGenerator.execute },
    { name := "CodeCleaning", execute := CodeCleaning.execute } ]

/-- Method run of ErrorCorrectionPipeline: runs the nested two-stage
pipeline (prompt selection, regeneration, cleaning) over the shared
context. -/
def ErrorCorrectionPipeline.run (collab : Collab) (st : RunState) (input : Val) :
    PipeResult Val :=
  Pipeline.run collab errorCorrectionSteps st input

/-- Retry hook on_code_retry of generate_chat_pipeline.py: wraps the failed
code and the exception into an ErrorCorrectionPipelineInput and runs the
error-correction sub-pipeline; the counter instruments how many times the
error-correction path was triggered. -/
def on_code_retry (collab : Collab) (st : RunState) (code : Val) (e : Exc) :
    PipeResult Val :=
  let st1 := { st with retry_invocations := st.retry_invocations + 1 }
  ErrorCorrectionPipeline.run collab st1 (Val.vcorr code e)

/-- Skip predicate no_code of generate_chat_pipeline.py: compares the
looked-up value (default empty string) against Python None by identity. -/
def no_code (ctx : PipelineContext) : Bool :=
  ctx.get "last_code_generated" == Val.pynone

/-- Skip predicate is_cached of generate_chat_pipeline.py: returns the
looked-up found_in_cache value, whose Python truthiness the executor
consults. -/
def is_cached (ctx : PipelineContext) : Bool :=
  (ctx.get "found_in_cache").truthy

/-- First stage of the generation pipeline. -/
def validateStep : LogicUnit :=
  { name := "ValidatePipelineInput", execute := fun _ st v => ValidatePipelineInput.execute st v }

/-- Second stage of the generation pipeline. -/
def cacheLookupStep : LogicUnit :=
  { name := "CacheLookup", execute := fun _ st v => CacheLookup.execute st v }

/-- Third stage of the generation pipeline, skipped on a cache hit. -/
def promptGenerationStep : LogicUnit :=
  { name := "PromptGeneration", skip_if := some is_cached,
    execute := fun _ st v => PromptGeneration.execute st v }

/-- Fourth stage of the generation pipeline, skipped on a cache hit. -/
def codeGeneratorStep : LogicUnit :=
  { name := "CodeGenerator", skip_if := some is_cached, execute := CodeGenerator.execute }

/-- Fifth stage of the generation pipeline, skipped on a cache hit. -/
def cachePopulationStep : LogicUnit :=
  { name := "CachePopulation", skip_if := some is_cached,
    execute := fun _ st v => CachePopulation.execute st v }

/-- Sixth stage of the generation pipeline, with the failure and retry hooks
wired in generate_chat_pipeline.py. -/
def codeCleaningStep : LogicUnit :=
  { name := "CodeCleaning", skip_if := some no_code,
    on_failure := some on_code_cleaning_failure,
    on_retry := some on_code_retry,
    execute := CodeCleaning.execute }

/-- Steps of the code-generation pipeline assembled by the constructor of
GenerateChatPipeline. -/
def generationSteps : List LogicUnit :=
  [validateStep, cacheLookupStep, promptGenerationStep, codeGeneratorStep,
    cachePopulationStep, codeCleaningStep]

/-- Execution stage with the failure and retry hooks wired in
generate_chat_pipeline.py. -/
def codeExecutionStep : LogicUnit :=
  { name := "CodeExecution",
    on_failure := some on_code_execution_failure,
    on_retry := some on_code_retry,
    execute := CodeExecution.execute }

/-- Validation stage of the execution pipeline (no hooks). -/
def resultValidationStep : LogicUnit :=
  { name := "ResultValidation", execute := fun _ st v => ResultValidation.execute st v }

/-- Parsing stage of the execution pipeline. -/
def resultParsingStep : LogicUnit :=
  { name := "ResultParsing", execute := fun _ st v => ResultParsing.execute st v }

/-- Steps of the code-execution pipeline assembled by the constructor of
GenerateChatPipeline. -/
def executionSteps : List LogicUnit :=
  [codeExecutionStep, resultValidationStep, resultParsingStep]

/-- Modelled from the spec: ChatPipelineInput (its source is not shipped)
carries the query, the requested output type, the prompt id and the
conversation id. -/
structure ChatPipelineInput where
  query : String
  output_type : Val := Val.vstr ""
  prompt_id : String := ""
  conversation_id : String := ""

/-- Modelled from the spec: CodeExecutionPipelineInput (its source is not
shipped) carries caller-supplied code instead of a query. -/
structure CodeExecutionPipelineInput where
  code : String
  output_type : Val := Val.vstr ""
  prompt_id : String := ""
  conversation_id : String := ""

/-- Shared prelude of the three entry points of generate_chat_pipeline.py:
reset the intermediate values, start a new track, record skills and
dataframes, add the message to the memory and store output_type and
last_prompt_id in the context. -/
def startRun (st : RunState) (message : String) (output_type : Val) (prompt_id : String) :
    RunState :=
  let ctx0 := st.ctx.reset_intermediate_values
  let tr := st.tracker.start_new_track
  let ctx1 := { ctx0 with memory := ctx0.memory ++ [(message, true)] }
  let ctx2 := ctx1.add_many [("output_type", output_type), ("last_prompt_id", Val.vstr prompt_id)]
  { st with ctx := ctx2, tracker := tr }

/-- Fixed preamble of the user-facing failure string of the three entry
points. -/
def failurePreamble : String :=
  "Unfortunately, I was not able to answer your question, because of the following error:"

/-- Full failure string returned when an exception escapes the bounded
retries, exactly as formatted in generate_chat_pipeline.py. -/
def failureMessage (e : Exc) : String :=
  failurePreamble ++ "\n\n" ++ e.message ++ "\n"

/-- Public return of an entry point: either the pipeline output or the
user-facing failure string (exceptions are never re-raised). -/
inductive RunReturn where
  | output (v : Val)
  | failure (msg : String)
deriving DecidableEq

/-- Shared epilogue of the three entry points of generate_chat_pipeline.py:
on success set tracker.success to True and publish; on exception set
last_error, set tracker.success to False, publish, and return the formatted
failure string instead of re-raising. -/
def finishRun : PipeResult Val → RunState × RunReturn
  | .ok (st, v) =>
    let tr := { st.tracker with success := true }
    ({ st with tracker := tr.publish }, RunReturn.output v)
  | .error (e, st) =>
    let tr := { st.tracker with success := false }
    ({ st with tracker := tr.publish, last_error := some e.message },
      RunReturn.failure (failureMessage e))

/-- Judge gate loop of GenerateChatPipeline.run: while the attempt count is
below max_retries, accept the candidate when the judge evaluates it as good,
otherwise regenerate through the code-generation pipeline; when the bound
is exhausted the last candidate is used anyway. -/
def judgeLoop (collab : Collab) (j : String → Val → Bool) (query : String) :
    Nat → RunState → Val → PipeResult Val
  | 0, st, code => .ok (st, code)
  | Nat.succ n, st, code =>
    if j query code then .ok (st, code)
    else
      match Pipeline.run collab generationSteps st (Val.vstr query) with
      | .ok (st1, code1) => judgeLoop collab j query n st1 code1
      | .error err => .error err

/-- Entry point GenerateChatPipeline.run: after the shared prelude, with a
judge the generation pipeline and the judge loop precede a separate
execution run; without a judge the generation and execution pipelines are
composed into one run (one shared retry budget); the epilogue publishes the
tracker and converts an escaped exception into the failure string. -/
def GenerateChatPipeline.run (collab : Collab) (judge : Option (String → Val → Bool))
    (st0 : RunState) (input : ChatPipelineInput) : RunState × RunReturn :=
  let st := startRun st0 input.query input.output_type input.prompt_id
  match judge with
  | some j =>
    finishRun
      (match Pipeline.run collab generationSteps st (Val.vstr input.query) with
        | .error err => .error err
        | .ok (st1, code) =>
          match judgeLoop collab j input.query st1.ctx.config.max_retries st1 code with
          | .error err => .error err
          | .ok (st2, code2) => Pipeline.run collab executionSteps st2 code2)
  | none =>
    finishRun (Pipeline.run collab (generationSteps ++ executionSteps) st (Val.vstr input.query))

/-- Entry point GenerateChatPipeline.run_generate_code: the shared prelude,
then only the code-generation pipeline, with the same epilogue. -/
def GenerateChatPipeline.run_generate_code (collab : Collab) (st0 : RunState)
    (input : ChatPipelineInput) : RunState × RunReturn :=
  let st := startRun st0 input.query input.output_type input.prompt_id
  finishRun (Pipeline.run collab generationSteps st (Val.vstr input.query))

/-- Entry point GenerateChatPipeline.run_execute_code: the shared prelude
(the caller-supplied code is the message added to memory), then only the
code-execution pipeline, with the same epilogue. -/
def GenerateChatPipeline.run_execute_code (collab : Collab) (st0 : RunState)
    (input : CodeExecutionPipelineInput) : RunState × RunReturn :=
  let st := startRun st0 input.code input.output_type input.prompt_id
  finishRun (Pipeline.run collab executionSteps st (Val.vstr input.code))

/-- State reached by a pipeline fragment, whether it returned or raised
(Python mutations persist across a raise). -/
def resState {α : Type} : Except (Exc × RunState) (RunState × α) → RunState
  | .ok (st, _) => st
  | .error (_, st) => st

/-- A stage never invokes tracker.publish, whatever the budget, state and
value. -/
def StepPreservesPub (collab : Collab) (step : LogicUnit) : Prop :=
  ∀ budget st v,
    (resState (runStep collab step budget st v)).tracker.publish_count
      = st.tracker.publish_count

lemma runStep_pub (collab : Collab) (step : LogicUnit)
    (hex : ∀ st v,
      (resState (step.execute collab st v)).tracker.publish_count
        = st.tracker.publish_count)
    (hfail : ∀ f, step.on_failure = some f → ∀ st v e,
      (f st v e).tracker.publish_count = st.tracker.publish_count)
    (hretry : ∀ r, step.on_retry = some r → ∀ st v e,
      (resState (r collab st v e)).tracker.publish_count = st.tracker.publish_count) :
    StepPreservesPub collab step := by
  intro budget
  induction budget with
  | zero =>
    intro st v
    rw [runStep]
    cases hE : step.execute collab st v with
    | ok p =>
      have := hex st v
      rw [hE] at this
      simpa [resState] using this
    | error err =>
      obtain ⟨e, stE⟩ := err
      have hstE : stE.tracker.publish_count = st.tracker.publish_count := by
        have := hex st v
        rw [hE] at this
        simpa [resState] using this
      cases hF : step.on_failure with
      | none =>
        cases hR : step.on_retry with
        | none => simpa [resState, hF, hR] using hstE
        | some r => simpa [resState, hF, hR] using hstE
      | some f =>
        have hf := hfail f hF stE v e
        cases hR : step.on_retry with
        | none => simp [resState, hF, hR]; omega
        | some r => simp [resState, hF, hR]; omega
  | succ b ih =>
    intro st v
    rw [runStep]
    cases hE : step.execute collab st v with
    | ok p =>
      have := hex st v
      rw [hE] at this
      simpa [resState] using this
    | error err =>
      obtain ⟨e, stE⟩ := err
      have hstE : stE.tracker.publish_count = st.tracker.publish_count := by
        have := hex st v
        rw [hE] at this
        simpa [resState] using this
      have hst1 : ∀ st1, st1 = (match step.on_failure with
          | some f => f stE v e
          | none => stE) → st1.tracker.publish_count = st.tracker.publish_count := by
        intro st1 h1
        cases hF : step.on_failure with
        | none => rw [hF] at h1; simpa [h1] using hstE
        | some f =>
          rw [hF] at h1
          have := hfail f hF stE v e
          rw [h1, this, hstE]
      cases hR : step.on_retry with
      | none =>
        simp only [hR]
        split <;> simp_all [resState]
      | some r =>
        simp only [hR]
        cases hRun : r collab (match step.on_failure with
            | some f => f stE v e
            | none => stE) v e with
        | error err2 =>
          obtain ⟨e2, st2⟩ := err2
          have := hretry r hR (match step.on_failure with
            | some f => f stE v e
            | none => stE) v e
          rw [hRun] at this
          simp only [resState] at this
          simp [resState, hRun, this, hst1 _ rfl]
        | ok p2 =>
          obtain ⟨st2, v2⟩ := p2
          have hp2 : st2.tracker.publish_count = st.tracker.publish_count := by
            have := hretry r hR (match step.on_failure with
              | some f => f stE v e
              | none => stE) v e
            rw [hRun] at this
            simp only [resState] at this
            rw [this, hst1 _ rfl]
          simp only [hRun]
          rw [ih st2 v2, hp2]

lemma runSteps_pub (collab : Collab) (steps : List LogicUnit)
    (h : ∀ step ∈ steps, StepPreservesPub collab step) :
    ∀ st v budget,
      (resState (runSteps collab steps st v budget)).tracker.publish_count
        = st.tracker.publish_count := by
  induction steps with
  | nil => intro st v budget; simp [runSteps, resState]
  | cons step rest ih =>
    intro st v budget
    rw [runSteps]
    have hstep := h step (List.mem_cons_self step rest)
    have hrest := ih (fun s hs => h s (List.mem_cons_of_mem step hs))
    split
    · exact hrest st v budget
    · cases hE : runStep collab step budget st v with
      | ok p =>
        obtain ⟨st1, v1, b1⟩ := p
        have := hstep budget st v
        rw [hE] at this
        simp only [resState] at this
        simp only [hE]
        rw [hrest st1 v1 b1, this]
      | error err =>
        obtain ⟨e, stE⟩ := err
        have := hstep budget st v
        rw [hE] at this
        simp only [resState] at this
        simp [hE, resState, this]

lemma pipelineRun_pub (collab : Collab) (steps : List LogicUnit)
    (h : ∀ step ∈ steps, StepPreservesPub collab step) (st : RunState) (input : Val) :
    (resState (Pipeline.run collab steps st input)).tracker.publish_count
      = st.tracker.publish_count := by
  rw [Pipeline.run]
  have := runSteps_pub collab steps h st input st.ctx.config.max_retries
  cases hE : runSteps collab steps st input st.ctx.config.max_retries with
  | ok p => obtain ⟨st1, v1, b1⟩ := p; rw [hE] at this; simpa [resState] using this
  | error err => obtain ⟨e, stE⟩ := err; rw [hE] at this; simpa [resState] using this

lemma tracker_validate (st : RunState) (v : Val) :
    (resState (ValidatePipelineInput.execute st v)).tracker = st.tracker := by
  rw [ValidatePipelineInput.execute]
  split <;> simp [resState]

lemma tracker_cacheLookup (st : RunState) (v : Val) :
    (resState (CacheLookup.execute st v)).tracker = st.tracker := by
  rw [CacheLookup.execute]
  repeat' split
  all_goals simp [resState, PipelineContext.add]

lemma tracker_promptGeneration (st : RunState) (v : Val) :
    (resState (PromptGeneration.execute st v)).tracker = st.tracker := by
  simp [PromptGeneration.execute, resState]

lemma tracker_codeGenerator (collab : Collab) (st : RunState) (v : Val) :
    (resState (CodeGenerator.execute collab st v)).tracker = st.tracker := by
  simp [CodeGenerator.execute, resState]

lemma tracker_cachePopulation (st : RunState) (v : Val) :
    (resState (CachePopulation.execute st v)).tracker = st.tracker := by
  cases h : st.ctx.cache <;> cases v <;> simp [CachePopulation.execute, h, resState]

lemma resState_codeCleaning (collab : Collab) (st : RunState) (v : Val) :
    resState (CodeCleaning.execute collab st v)
      = { st with cleaning_inputs := v :: st.cleaning_inputs } := by
  simp only [CodeCleaning.execute]
  split
  · split <;> simp [resState]
  · simp [resState]

lemma resState_codeExecution (collab : Collab) (st : RunState) (v : Val) :
    resState (CodeExecution.execute collab st v) = st := by
  simp only [CodeExecution.execute]
  split
  · split <;> simp [resState]
  · simp [resState]

lemma tracker_resultValidation (st : RunState) (v : Val) :
    (resState (ResultValidation.execute st v)).tracker = st.tracker := by
  simp only [ResultValidation.execute]
  split
  · simp [resState]
  · split <;> simp [resState, PipelineContext.add]

lemma tracker_resultParsing (st : RunState) (v : Val) :
    (resState (ResultParsing.execute st v)).tracker = st.tracker := by
  simp [ResultParsing.execute, resState]

lemma tracker_errorPromptGeneration (st : RunState) (v : Val) :
    (resState (ErrorPromptGeneration.execute st v)).tracker = st.tracker := by
  simp only [ErrorPromptGeneration.execute]
  split <;> simp [resState]

lemma pub_errorCorrectionStep (collab : Collab) :
    ∀ step ∈ errorCorrectionSteps, StepPreservesPub collab step := by
  intro step hs
  simp only [errorCorrectionSteps, List.mem_cons, List.not_mem_nil, or_false] at hs
  rcases hs with h | h | h <;> subst h <;>
    refine runStep_pub _ _ ?_ (by intro f hf; simp at hf) (by intro r hr; simp at hr)
  · intro st v
    simp [tracker_errorPromptGeneration st v]
  · intro st v
    simp [tracker_codeGenerator collab st v]
  · intro st v
    simp [resState_codeCleaning collab st v]

lemma pub_onCodeRetry (collab : Collab) (st : RunState) (v : Val) (e : Exc) :
    (resState (on_code_retry collab st v e)).tracker.publish_count
      = st.tracker.publish_count := by
  rw [on_code_retry, ErrorCorrectionPipeline.run]
  exact pipelineRun_pub collab errorCorrectionSteps (pub_errorCorrectionStep collab) _ _

lemma pub_mainStep (collab : Collab) :
    ∀ step ∈ generationSteps ++ executionSteps, StepPreservesPub collab step := by
  intro step hs
  simp only [generationSteps, executionSteps, List.mem_append, List.mem_cons,
    List.not_mem_nil, or_false] at hs
  rcases hs with ((h | h | h | h | h | h) | (h | h | h)) <;> subst h
  · refine runStep_pub _ _ ?_ (by intro f hf; simp [validateStep] at hf)
      (by intro r hr; simp [validateStep] at hr)
    intro st v
    simp [validateStep, tracker_validate st v]
  · refine runStep_pub _ _ ?_ (by intro f hf; simp [cacheLookupStep] at hf)
      (by intro r hr; simp [cacheLookupStep] at hr)
    intro st v
    simp [cacheLookupStep, tracker_cacheLookup st v]
  · refine runStep_pub _ _ ?_ (by intro f hf; simp [promptGenerationStep] at hf)
      (by intro r hr; simp [promptGenerationStep] at hr)
    intro st v
    simp [promptGenerationStep, tracker_promptGeneration st v]
  · refine runStep_pub _ _ ?_ (by intro f hf; simp [codeGeneratorStep] at hf)
      (by intro r hr; simp [codeGeneratorStep] at hr)
    intro st v
    simp [codeGeneratorStep, tracker_codeGenerator collab st v]
  · refine runStep_pub _ _ ?_ (by intro f hf; simp [cachePopulationStep] at hf)
      (by intro r hr; simp [cachePopulationStep] at hr)
    intro st v
    simp [cachePopulationStep, tracker_cachePopulation st v]
  · refine runStep_pub _ _ ?_
      (by intro f hf
          simp only [codeCleaningStep, Option.some.injEq] at hf
          subst hf
          intro st v e
          simp [on_code_cleaning_failure, QueryExecTracker.add_step])
      (by intro r hr
          simp only [codeCleaningStep, Option.some.injEq] at hr
          subst hr
          intro st v e
          exact pub_onCodeRetry collab st v e)
    intro st v
    simp [codeCleaningStep, resState_codeCleaning collab st v]
  · refine runStep_pub _ _ ?_
      (by intro f hf
          simp only [codeExecutionStep, Option.some.injEq] at hf
          subst hf
          intro st v e
          simp [on_code_execution_failure, QueryExecTracker.add_step])
      (by intro r hr
          simp only [codeExecutionStep, Option.some.injEq] at hr
          subst hr
          intro st v e
          exact pub_onCodeRetry collab st v e)
    intro st v
    simp [codeExecutionStep, resState_codeExecution collab st v]
  · refine runStep_pub _ _ ?_ (by intro f hf; simp [resultValidationStep] at hf)
      (by intro r hr; simp [resultValidationStep] at hr)
    intro st v
    simp [resultValidationStep, tracker_resultValidation st v]
  · refine runStep_pub _ _ ?_ (by intro f hf; simp [resultParsingStep] at hf)
      (by intro r hr; simp [resultParsingStep] at hr)
    intro st v
    simp [resultParsingStep, tracker_resultParsing st v]

lemma pub_generationStep (collab : Collab) :
    ∀ step ∈ generationSteps, StepPreservesPub collab step := by
  intro step hs
  exact pub_mainStep collab step (List.mem_append.2 (Or.inl hs))

lemma pub_executionStep (collab : Collab) :
    ∀ step ∈ executionSteps, StepPreservesPub collab step := by
  intro step hs
  exact pub_mainStep collab step (List.mem_append.2 (Or.inr hs))

lemma pub_judgeLoop (collab : Collab) (j : String → Val → Bool) (query : String) :
    ∀ fuel st code,
      (resState (judgeLoop collab j query fuel st code)).tracker.publish_count
        = st.tracker.publish_count := by
  intro fuel
  induction fuel with
  | zero => intro st code; simp [judgeLoop, resState]
  | succ n ih =>
    intro st code
    rw [judgeLoop]
    split
    · simp [resState]
    · cases hE : Pipeline.run collab generationSteps st (Val.vstr query) with
      | ok p =>
        obtain ⟨st1, code1⟩ := p
        have := pipelineRun_pub collab generationSteps (pub_generationStep collab) st
          (Val.vstr query)
        rw [hE] at this
        simp only [resState] at this
        simp only [hE]
        rw [ih st1 code1, this]
      | error err =>
        obtain ⟨e, stE⟩ := err
        have := pipelineRun_pub collab generationSteps (pub_generationStep collab) st
          (Val.vstr query)
        rw [hE] at this
        simp only [resState] at this
        simp [hE, resState, this]

lemma startRun_pub (st : RunState) (m : String) (ot : Val) (pid : String) :
    (startRun st m ot pid).tracker.publish_count = st.tracker.publish_count := by
  simp [startRun, QueryExecTracker.start_new_track]

lemma finishRun_pub (p : PipeResult Val) :
    (finishRun p).1.tracker.publish_count
      = (resState p).tracker.publish_count + 1 := by
  cases p with
  | ok q => obtain ⟨st, v⟩ := q; simp [finishRun, QueryExecTracker.publish, resState]
  | error q => obtain ⟨e, st⟩ := q; simp [finishRun, QueryExecTracker.publish, resState]

lemma finishRun_shape (p : PipeResult Val) :
    ((finishRun p).1.tracker.success = true ↔ ∃ v, (finishRun p).2 = RunReturn.output v) ∧
      (∀ msg, (finishRun p).2 = RunReturn.failure msg →
        (∃ rest, msg = failurePreamble ++ rest) ∧ (finishRun p).1.tracker.success = false) := by
  cases p with
  | ok q =>
    obtain ⟨st, v⟩ := q
    refine ⟨by simp [finishRun, QueryExecTracker.publish], ?_⟩
    intro msg h
    simp [finishRun] at h
  | error q =>
    obtain ⟨e, st⟩ := q
    refine ⟨by simp [finishRun, QueryExecTracker.publish], ?_⟩
    intro msg h
    simp only [finishRun, RunReturn.failure.injEq] at h
    refine ⟨⟨"\n\n" ++ (e.message ++ "\n"), ?_⟩, by simp [finishRun, QueryExecTracker.publish]⟩
    rw [← h, failureMessage, String.append_assoc, String.append_assoc]

lemma pub_pipelineGeneration (collab : Collab) (st : RunState) (input : Val) :
    (resState (Pipeline.run collab generationSteps st input)).tracker.publish_count
      = st.tracker.publish_count :=
  pipelineRun_pub collab generationSteps (pub_generationStep collab) st input

lemma pub_pipelineExecution (collab : Collab) (st : RunState) (input : Val) :
    (resState (Pipeline.run collab executionSteps st input)).tracker.publish_count
      = st.tracker.publish_count :=
  pipelineRun_pub collab executionSteps (pub_executionStep collab) st input

lemma pub_pipelineMain (collab : Collab) (st : RunState) (input : Val) :
    (resState (Pipeline.run collab (generationSteps ++ executionSteps) st input)).tracker.publish_count
      = st.tracker.publish_count :=
  pipelineRun_pub collab (generationSteps ++ executionSteps) (pub_mainStep collab) st input

/-- Every entry point is the epilogue applied to an inner pipeline outcome
whose execution never touched tracker.publish. -/
lemma exists_inner_run (collab : Collab) (judge : Option (String → Val → Bool))
    (st0 : RunState) (input : ChatPipelineInput) :
    ∃ p, GenerateChatPipeline.run collab judge st0 input = finishRun p ∧
      (resState p).tracker.publish_count = st0.tracker.publish_count := by
  cases judge with
  | none =>
    refine ⟨_, by rw [GenerateChatPipeline.run], ?_⟩
    rw [pub_pipelineMain, startRun_pub]
  | some j =>
    refine ⟨_, by rw [GenerateChatPipeline.run], ?_⟩
    cases hG : Pipeline.run collab generationSteps
        (startRun st0 input.query input.output_type input.prompt_id)
        (Val.vstr input.query) with
    | error err =>
      obtain ⟨e, stE⟩ := err
      have h1 := pub_pipelineGeneration collab
        (startRun st0 input.query input.output_type input.prompt_id) (Val.vstr input.query)
      rw [hG] at h1
      simp only [resState] at h1
      simpa [resState, h1] using startRun_pub st0 input.query input.output_type input.prompt_id
    | ok p =>
      obtain ⟨stG, code⟩ := p
      have h1 := pub_pipelineGeneration collab
        (startRun st0 input.query input.output_type input.prompt_id) (Val.vstr input.query)
      rw [hG] at h1
      simp only [resState] at h1
      rw [startRun_pub] at h1
      cases hJ : judgeLoop collab j input.query stG.ctx.config.max_retries stG code with
      | error err =>
        obtain ⟨e, stE⟩ := err
        have h2 := pub_judgeLoop collab j input.query stG.ctx.config.max_retries stG code
        rw [hJ] at h2
        simp only [resState] at h2
        simp [hJ, resState, h2, h1]
      | ok p2 =>
        obtain ⟨stJ, code2⟩ := p2
        have h2 := pub_judgeLoop collab j input.query stG.ctx.config.max_retries stG code
        rw [hJ] at h2
        simp only [resState] at h2
        have h3 := pub_pipelineExecution collab stJ code2
        simp only [hJ]
        rw [h3, h2, h1]

/-- The run_generate_code entry point as epilogue over a publish-preserving
inner outcome. -/
lemma exists_inner_generate (collab : Collab) (st0 : RunState) (input : ChatPipelineInput) :
    ∃ p, GenerateChatPipeline.run_generate_code collab st0 input = finishRun p ∧
      (resState p).tracker.publish_count = st0.tracker.publish_count := by
  refine ⟨_, by rw [GenerateChatPipeline.run_generate_code], ?_⟩
  rw [pub_pipelineGeneration, startRun_pub]

/-- The run_execute_code entry point as epilogue over a publish-preserving
inner outcome. -/
lemma exists_inner_execute (collab : Collab) (st0 : RunState) (input : CodeExecutionPipelineInput) :
    ∃ p, GenerateChatPipeline.run_execute_code collab st0 input = finishRun p ∧
      (resState p).tracker.publish_count = st0.tracker.publish_count := by
  refine ⟨_, by rw [GenerateChatPipeline.run_execute_code], ?_⟩
  rw [pub_pipelineExecution, startRun_pub]

/-- C2: for every input, each of the three entry points
GenerateChatPipeline.run, run_generate_code and run_execute_code never
re-raises to its caller (their return type is a plain result, and this
theorem characterises the failure branch): whenever the returned value is
the failure branch, its string begins with the fixed preamble
Unfortunately-I-was-not-able-to-answer-your-question, the tracker was
finalized with success equal to false, and the tracker was published
exactly once during the run. -/
theorem C2_top_level_catch (collab : Collab) (judge : Option (String → Val → Bool))
    (st0 : RunState) (inG : ChatPipelineInput) (inE : CodeExecutionPipelineInput) :
    (∀ msg, (GenerateChatPipeline.run collab judge st0 inG).2 = RunReturn.failure msg →
      (∃ rest, msg = failurePreamble ++ rest) ∧
        (GenerateChatPipeline.run collab judge st0 inG).1.tracker.success = false ∧
        (GenerateChatPipeline.run collab judge st0 inG).1.tracker.publish_count
          = st0.tracker.publish_count + 1) ∧
    (∀ msg, (GenerateChatPipeline.run_generate_code collab st0 inG).2 = RunReturn.failure msg →
      (∃ rest, msg = failurePreamble ++ rest) ∧
        (GenerateChatPipeline.run_generate_code collab st0 inG).1.tracker.success = false ∧
        (GenerateChatPipeline.run_generate_code collab st0 inG).1.tracker.publish_count
          = st0.tracker.publish_count + 1) ∧
    (∀ msg, (GenerateChatPipeline.run_execute_code collab st0 inE).2 = RunReturn.failure msg →
      (∃ rest, msg = failurePreamble ++ rest) ∧
        (GenerateChatPipeline.run_execute_code collab st0 inE).1.tracker.success = false ∧
        (GenerateChatPipeline.run_execute_code collab st0 inE).1.tracker.publish_count
          = st0.tracker.publish_count + 1) := by
  refine ⟨?_, ?_, ?_⟩
  · obtain ⟨p, hp, hpub⟩ := exists_inner_run collab judge st0 inG
    intro msg h
    rw [hp] at h ⊢
    obtain ⟨hpre, hsucc⟩ := (finishRun_shape p).2 msg h
    exact ⟨hpre, hsucc, by rw [finishRun_pub, hpub]⟩
  · obtain ⟨p, hp, hpub⟩ := exists_inner_generate collab st0 inG
    intro msg h
    rw [hp] at h ⊢
    obtain ⟨hpre, hsucc⟩ := (finishRun_shape p).2 msg h
    exact ⟨hpre, hsucc, by rw [finishRun_pub, hpub]⟩
  · obtain ⟨p, hp, hpub⟩ := exists_inner_execute collab st0 inE
    intro msg h
    rw [hp] at h ⊢
    obtain ⟨hpre, hsucc⟩ := (finishRun_shape p).2 msg h
    exact ⟨hpre, hsucc, by rw [finishRun_pub, hpub]⟩

/-- C4: every top-level run (GenerateChatPipeline.run, run_generate_code or
run_execute_code) increments the tracker publish counter by exactly one, on
the success path and on the failure path alike, and the final tracker
success flag is true exactly when the run returned a pipeline output (no
exception escaped). -/
theorem C4_tracker_publish_once (collab : Collab) (judge : Option (String → Val → Bool))
    (st0 : RunState) (inG : ChatPipelineInput) (inE : CodeExecutionPipelineInput) :
    ((GenerateChatPipeline.run collab judge st0 inG).1.tracker.publish_count
        = st0.tracker.publish_count + 1 ∧
      ((GenerateChatPipeline.run collab judge st0 inG).1.tracker.success = true ↔
        ∃ v, (GenerateChatPipeline.run collab judge st0 inG).2 = RunReturn.output v)) ∧
    ((GenerateChatPipeline.run_generate_code collab st0 inG).1.tracker.publish_count
        = st0.tracker.publish_count + 1 ∧
      ((GenerateChatPipeline.run_generate_code collab st0 inG).1.tracker.success = true ↔
        ∃ v, (GenerateChatPipeline.run_generate_code collab st0 inG).2 = RunReturn.output v)) ∧
    ((GenerateChatPipeline.run_execute_code collab st0 inE).1.tracker.publish_count
        = st0.tracker.publish_count + 1 ∧
      ((GenerateChatPipeline.run_execute_code collab st0 inE).1.tracker.success = true ↔
        ∃ v, (GenerateChatPipeline.run_execute_code collab st0 inE).2 = RunReturn.output v)) := by
  refine ⟨?_, ?_, ?_⟩
  · obtain ⟨p, hp, hpub⟩ := exists_inner_run collab judge st0 inG
    rw [hp]
    exact ⟨by rw [finishRun_pub, hpub], (finishRun_shape p).1⟩
  · obtain ⟨p, hp, hpub⟩ := exists_inner_generate collab st0 inG
    rw [hp]
    exact ⟨by rw [finishRun_pub, hpub], (finishRun_shape p).1⟩
  · obtain ⟨p, hp, hpub⟩ := exists_inner_execute collab st0 inE
    rw [hp]
    exact ⟨by rw [finishRun_pub, hpub], (finishRun_shape p).1⟩

/-- Collaborator for the closed failure scenario: the sanitizer accepts,
the data connector always raises. -/
def w2Collab : Collab :=
  { generate_code := fun _ => "code"
    exec_code := fun _ => .error (Exc.generic "boom")
    clean_code := fun c => .ok c }

/-- Context for the closed failure scenario: direct_sql with two SQL
connectors of different credentials, no retries, no cache. -/
def w2State : RunState :=
  { ctx := PipelineContext.init [Connector.sql "pg" "u1", Connector.sql "pg" "u2"]
      { direct_sql := true, max_retries := 0, enable_cache := false } [] none none
    tracker := {} }

/-- Chat input of the closed failure scenario. -/
def w2InputG : ChatPipelineInput := { query := "q" }

/-- Code input of the closed failure scenario. -/
def w2InputE : CodeExecutionPipelineInput := { code := "1+1" }

/-- Failure string produced by the invalid direct-SQL configuration. -/
def w2MsgV : String :=
  failureMessage (Exc.invalidConfigError
    "Direct requires all Connector and they belong to same datasource and have same credentials")

/-- Failure string produced by the raising data connector. -/
def w2MsgB : String := failureMessage (Exc.generic "boom")

set_option maxRecDepth 10000 in
theorem C2_top_level_catch_witness :
    (((∃ rest, w2MsgV = failurePreamble ++ rest) ∧
        (GenerateChatPipeline.run w2Collab none w2State w2InputG).1.tracker.success = false ∧
        (GenerateChatPipeline.run w2Collab none w2State w2InputG).1.tracker.publish_count
          = w2State.tracker.publish_count + 1) ∧
      ((∃ rest, w2MsgV = failurePreamble ++ rest) ∧
        (GenerateChatPipeline.run_generate_code w2Collab w2State w2InputG).1.tracker.success = false ∧
        (GenerateChatPipeline.run_generate_code w2Collab w2State w2InputG).1.tracker.publish_count
          = w2State.tracker.publish_count + 1) ∧
      ((∃ rest, w2MsgB = failurePreamble ++ rest) ∧
        (GenerateChatPipeline.run_execute_code w2Collab w2State w2InputE).1.tracker.success = false ∧
        (GenerateChatPipeline.run_execute_code w2Collab w2State w2InputE).1.tracker.publish_count
          = w2State.tracker.publish_count + 1)) :=
  ⟨(C2_top_level_catch w2Collab none w2State w2InputG w2InputE).1 w2MsgV (by decide),
    (C2_top_level_catch w2Collab none w2State w2InputG w2InputE).2.1 w2MsgV (by decide),
    (C2_top_level_catch w2Collab none w2State w2InputG w2InputE).2.2 w2MsgB (by decide)⟩

lemma startRun_frame (st : RunState) (m : String) (ot : Val) (pid : String) :
    (startRun st m ot pid).ctx.config = st.ctx.config ∧
      (startRun st m ot pid).ctx.dfs = st.ctx.dfs ∧
      (startRun st m ot pid).llm_calls = st.llm_calls ∧
      (startRun st m ot pid).retry_invocations = st.retry_invocations := by
  simp only [startRun, PipelineContext.add_many, PipelineContext.reset_intermediate_values]
  split <;> simp

lemma validate_direct_sql_fails (config : Config) (dfs : List Connector)
    (h1 : config.direct_sql = true)
    (h2 : dfs.all (fun df => df.isSQL && Connector.equals df ((dfs.head?).getD df)) = false)
    (h3 : dfs.all (fun df => df.sqlEnabledPandas) = false) :
    validate_direct_sql config dfs = .error (Exc.invalidConfigError
      "Direct requires all Connector and they belong to same datasource and have same credentials") := by
  simp [validate_direct_sql, h1, h2, h3]

lemma runSteps_validate_error (collab : Collab) (rest : List LogicUnit) (st : RunState)
    (v : Val) (budget : Nat) (e : Exc)
    (h : validate_direct_sql st.ctx.config st.ctx.dfs = .error e) :
    runSteps collab (validateStep :: rest) st v budget = .error (e, st) := by
  rw [runSteps, runStep]
  simp [validateStep, ValidatePipelineInput.execute, h]

/-- C8: when config.direct_sql is set and the data sources neither are all
SQL connectors equal to the first one nor all SQL-enabled pandas
connectors, ValidatePipelineInput (the first pipeline step) raises
InvalidConfigError: the whole run (with or without a judge, and likewise
run_generate_code) terminates with the failure string carrying that error,
no LLM code-generation call is made, and the error-correction retry path is
never entered. -/
theorem C8_validation_fatality (collab : Collab) (judge : Option (String → Val → Bool))
    (st0 : RunState) (input : ChatPipelineInput)
    (h1 : st0.ctx.config.direct_sql = true)
    (h2 : st0.ctx.dfs.all
      (fun df => df.isSQL && Connector.equals df ((st0.ctx.dfs.head?).getD df)) = false)
    (h3 : st0.ctx.dfs.all (fun df => df.sqlEnabledPandas) = false) :
    ((GenerateChatPipeline.run collab judge st0 input).2
        = RunReturn.failure (failureMessage (Exc.invalidConfigError
          "Direct requires all Connector and they belong to same datasource and have same credentials")) ∧
      (GenerateChatPipeline.run collab judge st0 input).1.llm_calls = st0.llm_calls ∧
      (GenerateChatPipeline.run collab judge st0 input).1.retry_invocations
        = st0.retry_invocations) ∧
    ((GenerateChatPipeline.run_generate_code collab st0 input).2
        = RunReturn.failure (failureMessage (Exc.invalidConfigError
          "Direct requires all Connector and they belong to same datasource and have same credentials")) ∧
      (GenerateChatPipeline.run_generate_code collab st0 input).1.llm_calls = st0.llm_calls ∧
      (GenerateChatPipeline.run_generate_code collab st0 input).1.retry_invocations
        = st0.retry_invocations) := by
  obtain ⟨hc, hd, hl, hr⟩ := startRun_frame st0 input.query input.output_type input.prompt_id
  have hval : validate_direct_sql
      (startRun st0 input.query input.output_type input.prompt_id).ctx.config
      (startRun st0 input.query input.output_type input.prompt_id).ctx.dfs
      = .error (Exc.invalidConfigError
        "Direct requires all Connector and they belong to same datasource and have same credentials") := by
    rw [hc, hd]
    exact validate_direct_sql_fails st0.ctx.config st0.ctx.dfs h1 h2 h3
  have hgen : ∀ (v : Val) (budget : Nat),
      runSteps collab generationSteps
        (startRun st0 input.query input.output_type input.prompt_id) v budget
        = .error (Exc.invalidConfigError
          "Direct requires all Connector and they belong to same datasource and have same credentials",
          startRun st0 input.query input.output_type input.prompt_id) := by
    intro v budget
    rw [generationSteps]
    exact runSteps_validate_error collab _ _ v budget _ hval
  have hmain : ∀ (v : Val) (budget : Nat),
      runSteps collab (generationSteps ++ executionSteps)
        (startRun st0 input.query input.output_type input.prompt_id) v budget
        = .error (Exc.invalidConfigError
          "Direct requires all Connector and they belong to same datasource and have same credentials",
          startRun st0 input.query input.output_type input.prompt_id) := by
    intro v budget
    rw [generationSteps, executionSteps, List.cons_append]
    exact runSteps_validate_error collab _ _ v budget _ hval
  refine ⟨?_, ?_⟩
  · cases judge with
    | none =>
      rw [GenerateChatPipeline.run]
      simp only [Pipeline.run, hmain, finishRun]
      exact ⟨trivial, by rw [hl], by rw [hr]⟩
    | some j =>
      rw [GenerateChatPipeline.run]
      simp only [Pipeline.run, hgen, finishRun]
      exact ⟨trivial, by rw [hl], by rw [hr]⟩
  · rw [GenerateChatPipeline.run_generate_code]
    simp only [Pipeline.run, hgen, finishRun]
    exact ⟨trivial, by rw [hl], by rw [hr]⟩

theorem C8_validation_fatality_witness :
    ((GenerateChatPipeline.run w2Collab none w2State w2InputG).2
        = RunReturn.failure (failureMessage (Exc.invalidConfigError
          "Direct requires all Connector and they belong to same datasource and have same credentials")) ∧
      (GenerateChatPipeline.run w2Collab none w2State w2InputG).1.llm_calls = w2State.llm_calls ∧
      (GenerateChatPipeline.run w2Collab none w2State w2InputG).1.retry_invocations
        = w2State.retry_invocations) ∧
    ((GenerateChatPipeline.run_generate_code w2Collab w2State w2InputG).2
        = RunReturn.failure (failureMessage (Exc.invalidConfigError
          "Direct requires all Connector and they belong to same datasource and have same credentials")) ∧
      (GenerateChatPipeline.run_generate_code w2Collab w2State w2InputG).1.llm_calls
        = w2State.llm_calls ∧
      (GenerateChatPipeline.run_generate_code w2Collab w2State w2InputG).1.retry_invocations
        = w2State.retry_invocations) :=
  C8_validation_fatality w2Collab none w2State w2InputG (by decide) (by decide) (by decide)

lemma resultValidation_ok (st : RunState) (input : Val) :
    ∃ st1 out, ResultValidation.execute st input = .ok (st1, some out) ∧ out.value = input := by
  cases input
  all_goals exact ⟨_, _, rfl, rfl⟩

/-- C7: ResultValidation never raises and never triggers retry: its body
always returns ok (first conjunct) with the received result unchanged as
the step value; when the result is a result record that fails validation
against the requested output_type, only success is set to false with the
validation-failure message; running the ResultValidation stage followed by
ResultParsing from any state passes the very same value through to the
caller without consuming any retry budget (second conjunct, the mismatched
result is still returned); and the stage carries no retry hook (third
conjunct). -/
theorem C7_result_validation (collab : Collab) (st : RunState) (input : Val) (budget : Nat) :
    (∃ st1 out, ResultValidation.execute st input = .ok (st1, some out) ∧
      out.value = input ∧
      (∀ ty value, input = Val.vresult ty value →
        (OutputValidator.validate (st.ctx.get "output_type") ty value).1 = false →
          out.success = false ∧ out.message = some "Output Validation Failed")) ∧
    (∃ st2, runSteps collab [resultValidationStep, resultParsingStep] st input budget
      = .ok (st2, input, budget)) ∧
    resultValidationStep.on_retry = none := by
  refine ⟨?_, ?_, rfl⟩
  · cases input
    case vresult ty0 value0 =>
      refine ⟨_, _, rfl, rfl, ?_⟩
      intro ty value heq hfail
      injection heq with hty hvalue
      subst hty
      subst hvalue
      simp [hfail]
    all_goals
      refine ⟨_, _, rfl, rfl, ?_⟩
      intro ty value heq
      simp at heq
  · obtain ⟨st1, out, hok, hval⟩ := resultValidation_ok st input
    refine ⟨st1, ?_⟩
    rw [runSteps]
    simp [resultValidationStep, resultParsingStep, runStep, runSteps, hok, stepValue, hval,
      ResultParsing.execute]

theorem C7_result_validation_witness :
    (∃ st1 out,
      ResultValidation.execute w2State (Val.vresult "string" "x") = .ok (st1, some out) ∧
      out.value = Val.vresult "string" "x" ∧
      (∀ ty value, Val.vresult "string" "x" = Val.vresult ty value →
        (OutputValidator.validate (w2State.ctx.get "output_type") ty value).1 = false →
          out.success = false ∧ out.message = some "Output Validation Failed")) ∧
    (∃ st2, runSteps w2Collab [resultValidationStep, resultParsingStep] w2State
      (Val.vresult "string" "x") 3 = .ok (st2, Val.vresult "string" "x", 3)) ∧
    resultValidationStep.on_retry = none :=
  C7_result_validation w2Collab w2State (Val.vresult "string" "x") 3

/-- C9: the error-correction sub-pipeline selects its correction prompt
solely by the kind of the exception, and that selected prompt is exactly
the one handed to the LLM collaborator by the CodeGenerator stage of the
sub-pipeline (first conjunct, whether or not the subsequent cleaning
raises): an InvalidLLMOutputType exception yields the output-type
correction prompt rendered with the requested output_type, an
ExecuteSQLQueryNotUsed exception yields the execute-SQL-usage correction
prompt, and every other exception yields the generic correction prompt,
each rendered with the offending code and the formatted traceback. -/
theorem C9_error_prompt_dispatch (collab : Collab) (st : RunState) (code : Val) (e : Exc) :
    (resState (ErrorCorrectionPipeline.run collab st (Val.vcorr code e))).llm_prompts.head?
        = some (ErrorPromptGeneration.get_prompt st.ctx e code) ∧
    (∀ m, e = Exc.invalidLLMOutputType m →
      ErrorPromptGeneration.get_prompt st.ctx e code
        = Val.pCorrectOutputTypeError code (format_exc e) (st.ctx.get "output_type")) ∧
    (∀ m, e = Exc.executeSQLQueryNotUsed m →
      ErrorPromptGeneration.get_prompt st.ctx e code
        = Val.pCorrectExecuteSQLQueryUsageError code (format_exc e)) ∧
    ((∀ m, e ≠ Exc.invalidLLMOutputType m) → (∀ m, e ≠ Exc.executeSQLQueryNotUsed m) →
      ErrorPromptGeneration.get_prompt st.ctx e code
        = Val.pCorrectError code (format_exc e)) := by
  refine ⟨?_, ?_, ?_, ?_⟩
  · simp only [ErrorCorrectionPipeline.run, Pipeline.run, errorCorrectionSteps, runSteps,
      runStep, ErrorPromptGeneration.execute, CodeGenerator.execute, CodeCleaning.execute,
      stepValue]
    cases h : collab.clean_code
        (collab.generate_code (ErrorPromptGeneration.get_prompt st.ctx e code)) <;>
      simp [h, resState]
  · intro m hm
    subst hm
    rfl
  · intro m hm
    subst hm
    rfl
  · intro hno hns
    cases e with
    | invalidConfigError m => rfl
    | generic m => rfl
    | invalidLLMOutputType m => exact absurd rfl (hno m)
    | executeSQLQueryNotUsed m => exact absurd rfl (hns m)

theorem C9_error_prompt_dispatch_witness :
    ((resState (ErrorCorrectionPipeline.run w2Collab w2State
        (Val.vcorr (Val.vstr "df.foo()") (Exc.invalidLLMOutputType "bad")))).llm_prompts.head?
      = some (ErrorPromptGeneration.get_prompt w2State.ctx
        (Exc.invalidLLMOutputType "bad") (Val.vstr "df.foo()"))) ∧
    (ErrorPromptGeneration.get_prompt w2State.ctx
        (Exc.invalidLLMOutputType "bad") (Val.vstr "df.foo()")
      = Val.pCorrectOutputTypeError (Val.vstr "df.foo()")
        (format_exc (Exc.invalidLLMOutputType "bad")) (w2State.ctx.get "output_type")) ∧
    (ErrorPromptGeneration.get_prompt w2State.ctx
        (Exc.executeSQLQueryNotUsed "helper") (Val.vstr "df.foo()")
      = Val.pCorrectExecuteSQLQueryUsageError (Val.vstr "df.foo()")
        (format_exc (Exc.executeSQLQueryNotUsed "helper"))) ∧
    (ErrorPromptGeneration.get_prompt w2State.ctx
        (Exc.generic "boom") (Val.vstr "df.foo()")
      = Val.pCorrectError (Val.vstr "df.foo()") (format_exc (Exc.generic "boom"))) :=
  ⟨(C9_error_prompt_dispatch w2Collab w2State (Val.vstr "df.foo()")
      (Exc.invalidLLMOutputType "bad")).1,
    (C9_error_prompt_dispatch w2Collab w2State (Val.vstr "df.foo()")
      (Exc.invalidLLMOutputType "bad")).2.1 "bad" rfl,
    (C9_error_prompt_dispatch w2Collab w2State (Val.vstr "df.foo()")
      (Exc.executeSQLQueryNotUsed "helper")).2.2.1 "helper" rfl,
    (C9_error_prompt_dispatch w2Collab w2State (Val.vstr "df.foo()")
      (Exc.generic "boom")).2.2.2 (by intro m h; cases h) (by intro m h; cases h)⟩

/-- C10: on a cache miss (cache disabled, absent from the context, or no
truthy entry under the computed key), CacheLookup.execute returns the bare
Python None instead of a step-result record and leaves the whole state, in
particular intermediate_values, unchanged; it never writes an explicit
found_in_cache equal to False, so when the flag is absent the later skip
predicates observe the default value (the empty string), under which
is_cached is false. -/
theorem C10_cache_miss_frame (st : RunState) (input : Val)
    (h : st.ctx.config.enable_cache = false ∨ st.ctx.cache = none ∨
      (∀ c, st.ctx.cache = some c →
        c.get (get_cache_key st.ctx) = none ∨ c.get (get_cache_key st.ctx) = some "")) :
    CacheLookup.execute st input = .ok (st, none) ∧
    (dictGet st.ctx.intermediate_values "found_in_cache" = none →
      st.ctx.get "found_in_cache" = Val.vstr "" ∧ is_cached st.ctx = false) := by
  constructor
  · rw [CacheLookup.execute]
    rcases h with h | h | h
    · simp [h]
    · simp [h]
    · split
      · cases hc : st.ctx.cache with
        | none => simp
        | some c =>
          simp only
          rcases h c hc with hk | hk
          · simp [hk]
          · simp [hk]
      · rfl
  · intro habs
    have hget : st.ctx.get "found_in_cache" = Val.vstr "" := by
      rw [PipelineContext.get, habs]
      rfl
    exact ⟨hget, by rw [is_cached, hget]; rfl⟩

theorem C10_cache_miss_frame_witness :
    CacheLookup.execute w2State Val.pynone = .ok (w2State, none) ∧
    (w2State.ctx.get "found_in_cache" = Val.vstr "" ∧ is_cached w2State.ctx = false) :=
  ⟨(C10_cache_miss_frame w2State Val.pynone (Or.inl rfl)).1,
    (C10_cache_miss_frame w2State Val.pynone (Or.inl rfl)).2 rfl⟩

/-- Context holding no intermediate values at all, as at the start of a
fresh run. -/
def c6Ctx : PipelineContext := PipelineContext.init [] {} [] none none

/-- C6 counterexample: a context that holds no last_code_generated value at
all, on which the skip predicate no_code nevertheless returns false (the
claim demands true), because PipelineContext.get returns the default empty
string rather than None for a missing key. -/
theorem C6_no_code_counterexample :
    ¬ (no_code c6Ctx = true ↔
        dictGet c6Ctx.intermediate_values "last_code_generated" = none) := by
  decide

/-- C6 amended: no_code returns true exactly when the context maps
last_code_generated to the explicit value None; in particular, when the key
is absent the lookup yields the default empty string, no_code returns
false, and CodeCleaning is therefore not skipped on a run that produced no
code. -/
theorem C6_no_code_amended :
    (∀ ctx : PipelineContext, no_code ctx = true ↔
      ctx.get "last_code_generated" = Val.pynone) ∧
    (∀ ctx : PipelineContext,
      dictGet ctx.intermediate_values "last_code_generated" = none →
        no_code ctx = false) := by
  constructor
  · intro ctx
    rw [no_code]
    exact beq_iff_eq
  · intro ctx habs
    rw [no_code, PipelineContext.get, habs]
    rfl

theorem C6_no_code_amended_witness :
    (no_code c6Ctx = true ↔ c6Ctx.get "last_code_generated" = Val.pynone) ∧
      no_code c6Ctx = false :=
  ⟨C6_no_code_amended.1 c6Ctx, C6_no_code_amended.2 c6Ctx rfl⟩

/-- Collaborator for the reset-aliasing scenario: generation, execution and
cleaning all succeed. -/
def c5Collab : Collab :=
  { generate_code := fun _ => "df.mean()"
    exec_code := fun code => .ok ("string", code)
    clean_code := fun code => .ok code }

/-- State whose context was constructed with a non-empty initial_values
dict, which the constructor aliases into intermediate_values. -/
def c5State : RunState :=
  { ctx := PipelineContext.init [] { enable_cache := false } [] none
      (some [("seed", Val.vstr "s")])
    tracker := {} }

/-- Input of the reset-aliasing scenario. -/
def c5Input : ChatPipelineInput := { query := "avg revenue" }

/-- C5 counterexample: on a PipelineContext constructed with a non-empty
initial_values dict, the value last_code_generated written during a
completed run is still observable after reset_intermediate_values (the
reset every later run performs first), where the claim demands the default
empty string: the constructor aliases the initial snapshot and the current
dict, so the snapshot mutates along with the run. -/
theorem C5_reset_counterexample :
    ((GenerateChatPipeline.run c5Collab none c5State c5Input).1.ctx.reset_intermediate_values).get
        "last_code_generated" = Val.vstr "df.mean()" := by
  decide

/-- C5 amended: when the context was constructed without a non-empty
initial_values dict (the aliasing flag is clear, as for every context the
repository itself builds), reset_intermediate_values yields the empty map,
every lookup afterwards returns the default, and the start of a top-level
run leaves exactly the two prelude keys output_type and last_prompt_id in
intermediate_values, so nothing written during an earlier run is
observable; a context built with a non-empty initial_values dict instead
keeps its mutated dict across resets. -/
theorem C5_reset_amended (st : RunState) (m : String) (ot : Val) (pid : String)
    (h : st.ctx.shared_initial = false) :
    st.ctx.reset_intermediate_values.intermediate_values = [] ∧
    (∀ key, st.ctx.reset_intermediate_values.get key = Val.vstr "") ∧
    (startRun st m ot pid).ctx.intermediate_values
      = [("output_type", ot), ("last_prompt_id", Val.vstr pid)] ∧
    (∀ dfs config mem cache,
      (PipelineContext.init dfs config mem cache none).shared_initial = false) := by
  have hreset : st.ctx.reset_intermediate_values.intermediate_values = [] := by
    rw [PipelineContext.reset_intermediate_values, if_neg (by rw [h]; exact Bool.false_ne_true)]
  refine ⟨hreset, ?_, ?_, fun dfs config mem cache => rfl⟩
  · intro key
    rw [PipelineContext.get]
    have : dictGet st.ctx.reset_intermediate_values.intermediate_values key = none := by
      rw [hreset]; rfl
    rw [this]
    rfl
  · rw [startRun]
    simp only [PipelineContext.add_many, List.foldl]
    rw [hreset]
    rfl

/-- Mid-run state over a context built without initial_values, holding a
leftover intermediate value. -/
def c5GoodState : RunState :=
  { ctx := { PipelineContext.init [] {} [] none none with
      intermediate_values := [("junk", Val.vstr "j")] }
    tracker := {} }

theorem C5_reset_amended_witness :
    c5GoodState.ctx.reset_intermediate_values.intermediate_values = [] ∧
    (∀ key, c5GoodState.ctx.reset_intermediate_values.get key = Val.vstr "") ∧
    (startRun c5GoodState "q" (Val.vstr "") "p1").ctx.intermediate_values
      = [("output_type", Val.vstr ""), ("last_prompt_id", Val.vstr "p1")] ∧
    (∀ dfs config mem cache,
      (PipelineContext.init dfs config mem cache none).shared_initial = false) :=
  C5_reset_amended c5GoodState "q" (Val.vstr "") "p1" rfl

/-- Collaborator for the retry-bound scenario: cleaning succeeds, the LLM
always produces the same regenerated code, and code execution raises on
every attempt. -/
def c1Collab : Collab :=
  { generate_code := fun _ => "regenerated code"
    exec_code := fun _ => .error (Exc.generic "execution always fails")
    clean_code := fun code => .ok code }

/-- Initial state of the retry-bound scenario, with the retry bound m and
the cache disabled. -/
def c1State (m : Nat) : RunState :=
  { ctx := PipelineContext.init [] { enable_cache := false, max_retries := m } [] none none
    tracker := {} }

/-- Input of the retry-bound scenario. -/
def c1Input : ChatPipelineInput := { query := "avg revenue" }

/-- State change of one successful error-correction cycle of the
retry-bound scenario starting from state st with offending code s: the
retry hook fires (retry counter), the generic correction prompt for s is
handed to the LLM (one more LLM call), the regenerated code is stored and
then logged by cleaning. -/
def c1Corr (st : RunState) (s : String) : RunState :=
  { ctx := st.ctx.add "last_code_generated" (Val.vstr "regenerated code")
    tracker := st.tracker
    llm_calls := st.llm_calls + 1
    llm_prompts := Val.pCorrectError (Val.vstr s)
      (format_exc (Exc.generic "execution always fails")) :: st.llm_prompts
    prompt_gen_calls := st.prompt_gen_calls
    code_gen_calls := st.code_gen_calls + 1
    cleaning_inputs := Val.vstr "regenerated code" :: st.cleaning_inputs
    retry_invocations := st.retry_invocations + 1
    last_error := st.last_error }

lemma c1_correction (st : RunState) (s : String) :
    on_code_retry c1Collab st (Val.vstr s) (Exc.generic "execution always fails")
      = .ok (c1Corr st s, Val.vstr "regenerated code") := by
  rw [on_code_retry, ErrorCorrectionPipeline.run, Pipeline.run]
  cases ({ st with retry_invocations := st.retry_invocations + 1 }
      : RunState).ctx.config.max_retries with
  | zero => rfl
  | succ n => rfl

lemma c1_loop : ∀ (b : Nat) (st : RunState) (s : String),
    ∃ stE, runStep c1Collab codeExecutionStep b st (Val.vstr s)
        = .error (Exc.generic "execution always fails", stE) ∧
      stE.llm_calls = st.llm_calls + b ∧
      stE.retry_invocations = st.retry_invocations + b := by
  intro b
  induction b with
  | zero =>
    intro st s
    exact ⟨{ st with tracker := st.tracker.add_step { type := "CodeExecution", success := false } },
      rfl, rfl, rfl⟩
  | succ n ih =>
    intro st s
    obtain ⟨stE, hE, h1, h2⟩ := ih
      (c1Corr { st with
        tracker := st.tracker.add_step { type := "CodeExecution", success := false } } s)
      "regenerated code"
    refine ⟨stE, ?_, ?_, ?_⟩
    · show (match on_code_retry c1Collab
          ({ st with tracker := st.tracker.add_step { type := "CodeExecution", success := false } })
          (Val.vstr s) (Exc.generic "execution always fails") with
        | .ok (st2, v2) => runStep c1Collab codeExecutionStep n st2 v2
        | .error err => .error err)
        = .error (Exc.generic "execution always fails", stE)
      rw [c1_correction]
      exact hE
    · rw [h1]
      simp [c1Corr]
      omega
    · rw [h2]
      simp [c1Corr]
      omega

lemma c1_exec_steps (st : RunState) (s : String) (b : Nat) :
    ∃ stE, runSteps c1Collab executionSteps st (Val.vstr s) b
        = .error (Exc.generic "execution always fails", stE) ∧
      stE.llm_calls = st.llm_calls + b ∧
      stE.retry_invocations = st.retry_invocations + b := by
  obtain ⟨stE, hE, h1, h2⟩ := c1_loop b st s
  refine ⟨stE, ?_, h1, h2⟩
  have hskip : codeExecutionStep.skip_if = none := rfl
  rw [executionSteps, runSteps]
  simp only [hskip, hE]
  rfl

lemma runSteps_append (collab : Collab) (l1 l2 : List LogicUnit) :
    ∀ st v b, runSteps collab (l1 ++ l2) st v b
      = match runSteps collab l1 st v b with
        | .ok (st1, v1, b1) => runSteps collab l2 st1 v1 b1
        | .error err => .error err := by
  induction l1 with
  | nil => intro st v b; rw [List.nil_append, runSteps]
  | cons step rest ih =>
    intro st v b
    rw [List.cons_append, runSteps, runSteps]
    split
    · exact ih st v b
    · cases hE : runStep collab step b st v with
      | ok p => obtain ⟨st1, v1, b1⟩ := p; exact ih st1 v1 b1
      | error err => rfl

/-- State of the retry-bound scenario right before CodeExecution: one
prompt generated, one LLM call made, the code cached nowhere (cache
disabled), cleaned once, no retries yet. -/
def c1Pre (m : Nat) : RunState :=
  { ctx :=
      { dfs := []
        config := { enable_cache := false, max_retries := m }
        memory := [("avg revenue", true)]
        cache := none
        intermediate_values := [("output_type", Val.vstr ""), ("last_prompt_id", Val.vstr ""),
          ("last_code_generated", Val.vstr "regenerated code")]
        shared_initial := false }
    tracker := { started := true }
    llm_calls := 1
    llm_prompts := [Val.pGeneratePythonCode (Val.vstr "") "matplotlib" (Val.vstr "")]
    prompt_gen_calls := 1
    code_gen_calls := 1
    cleaning_inputs := [Val.vstr "regenerated code"]
    retry_invocations := 0
    last_error := none }

/-- C1: for a run in which CodeExecution raises on every attempt, the
error-correction retry loop is entered exactly config.max_retries times
(each cycle re-entering the same CodeExecution stage and issuing exactly
one LLM code-generation call, so LLM calls total max_retries plus the one
initial generation), the single attempt counter is shared across the whole
run, and once the bound is exhausted GenerateChatPipeline.run returns the
formatted failure string instead of raising. -/
theorem C1_retry_bound (m : Nat) :
    (GenerateChatPipeline.run c1Collab none (c1State m) c1Input).2
        = RunReturn.failure (failureMessage (Exc.generic "execution always fails")) ∧
      (GenerateChatPipeline.run c1Collab none (c1State m) c1Input).1.retry_invocations = m ∧
      (GenerateChatPipeline.run c1Collab none (c1State m) c1Input).1.llm_calls = m + 1 := by
  have hgen : runSteps c1Collab generationSteps
      (startRun (c1State m) c1Input.query c1Input.output_type c1Input.prompt_id)
      (Val.vstr c1Input.query) m = .ok (c1Pre m, Val.vstr "regenerated code", m) := by
    cases m with
    | zero => rfl
    | succ k => rfl
  obtain ⟨stE, hE, h1, h2⟩ := c1_exec_steps (c1Pre m) "regenerated code" m
  have hmain : Pipeline.run c1Collab (generationSteps ++ executionSteps)
      (startRun (c1State m) c1Input.query c1Input.output_type c1Input.prompt_id)
      (Val.vstr c1Input.query)
      = .error (Exc.generic "execution always fails", stE) := by
    rw [Pipeline.run]
    have hbudget : (startRun (c1State m) c1Input.query c1Input.output_type
        c1Input.prompt_id).ctx.config.max_retries = m := rfl
    rw [hbudget, runSteps_append, hgen]
    simp only [hE]
  rw [GenerateChatPipeline.run]
  simp only [hmain, finishRun]
  refine ⟨trivial, ?_, ?_⟩
  · rw [h2]
    simp [c1Pre]
  · rw [h1]
    simp [c1Pre]
    omega

/-- Collaborator of the cache-idempotence scenario: the LLM answers every
prompt with the same code c, execution and cleaning succeed. -/
def c3Collab (c : String) : Collab :=
  { generate_code := fun _ => c
    exec_code := fun code => .ok ("string", code)
    clean_code := fun code => .ok code }

/-- Fresh state of the cache-idempotence scenario: default config (cache
enabled), empty cache. -/
def c3State : RunState := { ctx := PipelineContext.init [] {} [] none none, tracker := {} }

/-- Input of the cache-idempotence scenario. -/
def c3Input (q : String) : ChatPipelineInput := { query := q }

/-- First run of the query q. -/
def c3Run1 (q c : String) : RunState × RunReturn :=
  GenerateChatPipeline.run (c3Collab c) none c3State (c3Input q)

/-- Second run of the same query q on the state left by the first run. -/
def c3Run2 (q c : String) : RunState × RunReturn :=
  GenerateChatPipeline.run (c3Collab c) none (c3Run1 q c).1 (c3Input q)

/-- State left by the first run: the code c is cached under the stable
fingerprint of q, one LLM call was made, the tracker was published once. -/
def c3Post1 (q c : String) : RunState :=
  { ctx :=
      { dfs := []
        config := {}
        memory := [(q, true)]
        cache := some { entries := [(q ++ "#" ++ toString false, c)] }
        intermediate_values := [("output_type", Val.vstr ""), ("last_prompt_id", Val.vstr ""),
          ("last_code_generated", Val.vstr c), ("last_result", Val.vresult "string" c)]
        shared_initial := false }
    tracker := { started := true, steps := [], success := true, publish_count := 1, last_log_id := none }
    llm_calls := 1
    llm_prompts := [Val.pGeneratePythonCode (Val.vstr "") "matplotlib" (Val.vstr "")]
    prompt_gen_calls := 1
    code_gen_calls := 1
    cleaning_inputs := [Val.vstr c]
    retry_invocations := 0
    last_error := none }

/-- State at the start of the second run, after the shared prelude. -/
def c3Start2 (q c : String) : RunState :=
  { ctx :=
      { dfs := []
        config := {}
        memory := [(q, true), (q, true)]
        cache := some { entries := [(q ++ "#" ++ toString false, c)] }
        intermediate_values := [("output_type", Val.vstr ""), ("last_prompt_id", Val.vstr "")]
        shared_initial := false }
    tracker := { started := true, steps := [], success := true, publish_count := 1, last_log_id := none }
    llm_calls := 1
    llm_prompts := [Val.pGeneratePythonCode (Val.vstr "") "matplotlib" (Val.vstr "")]
    prompt_gen_calls := 1
    code_gen_calls := 1
    cleaning_inputs := [Val.vstr c]
    retry_invocations := 0
    last_error := none }

/-- State right after the cache hit of the second run. -/
def c3Hit (q c : String) : RunState :=
  { c3Start2 q c with
    ctx := { (c3Start2 q c).ctx with
      intermediate_values := [("output_type", Val.vstr ""), ("last_prompt_id", Val.vstr ""),
        ("found_in_cache", Val.vbool true)] } }

/-- State of the second run after CodeCleaning received the cached code. -/
def c3PreExec2 (q c : String) : RunState :=
  { c3Hit q c with cleaning_inputs := [Val.vstr c, Val.vstr c] }

lemma c3_run1_eq (q c : String) :
    c3Run1 q c = (c3Post1 q c, RunReturn.output (Val.vresult "string" c)) := rfl

lemma c3_start2_eq (q c : String) :
    startRun (c3Post1 q c) (c3Input q).query (c3Input q).output_type (c3Input q).prompt_id
      = c3Start2 q c := rfl

lemma c3_lookup (q c : String) (hc : (c == "") = false) :
    CacheLookup.execute (c3Start2 q c) (Val.vstr q)
      = .ok (c3Hit q c, some { value := Val.vstr c, success := true, message := some "Cache Hit" }) := by
  simp [CacheLookup.execute, c3Start2, c3Hit, Cache.get, get_cache_key, lastUserQuery,
    PipelineContext.add, dictSet, hc]

lemma c3_gen2 (q c : String) (hc : (c == "") = false) :
    runSteps (c3Collab c) generationSteps (c3Start2 q c) (Val.vstr q) 3
      = .ok (c3PreExec2 q c, Val.vstr c, 3) := by
  show (match runStep (c3Collab c) cacheLookupStep 3 (c3Start2 q c) (Val.vstr q) with
      | .ok (st1, v1, b1) => runSteps (c3Collab c)
          [promptGenerationStep, codeGeneratorStep, cachePopulationStep, codeCleaningStep]
          st1 v1 b1
      | .error err => .error err) = .ok (c3PreExec2 q c, Val.vstr c, 3)
  rw [runStep]
  simp only [cacheLookupStep]
  rw [c3_lookup q c hc]
  rfl

/-- Final state of the second run before the epilogue. -/
def c3Final2 (q c : String) : RunState :=
  { c3PreExec2 q c with
    ctx := { (c3PreExec2 q c).ctx with
      intermediate_values := [("output_type", Val.vstr ""), ("last_prompt_id", Val.vstr ""),
        ("found_in_cache", Val.vbool true), ("last_result", Val.vresult "string" c)] } }

lemma c3_main2 (q c : String) (hc : (c == "") = false) :
    Pipeline.run (c3Collab c) (generationSteps ++ executionSteps) (c3Start2 q c) (Val.vstr q)
      = .ok (c3Final2 q c, Val.vresult "string" c) := by
  rw [Pipeline.run]
  have hb : (c3Start2 q c).ctx.config.max_retries = 3 := rfl
  rw [hb, runSteps_append, c3_gen2 q c hc]
  rfl

lemma c3_run2_eq (q c : String) (hc : (c == "") = false) :
    c3Run2 q c = ({ c3Final2 q c with
        tracker := { started := true, steps := [], success := true, publish_count := 2, last_log_id := none } },
      RunReturn.output (Val.vresult "string" c)) := by
  rw [c3Run2]
  have h1 : (c3Run1 q c).1 = c3Post1 q c := rfl
  have h2 : (c3Input q).query = q := rfl
  rw [h1, GenerateChatPipeline.run, c3_start2_eq, h2, c3_main2 q c hc]
  rfl

/-- C3: running the same query twice with an unchanged context fingerprint
and caching enabled, the second run finds the code in the cache (its
found_in_cache flag is set to True), the PromptGeneration and CodeGenerator
stages are not invoked again (their invocation counters do not move), the
value handed to CodeCleaning on the second run is exactly the cached code,
which the first run stored under the fingerprint key, and across both runs
the LLM was called exactly once. -/
theorem C3_cache_idempotence (q c : String) (h : c ≠ "") :
    (c3Run2 q c).1.ctx.get "found_in_cache" = Val.vbool true ∧
    (c3Run2 q c).1.prompt_gen_calls = (c3Run1 q c).1.prompt_gen_calls ∧
    (c3Run2 q c).1.code_gen_calls = (c3Run1 q c).1.code_gen_calls ∧
    (c3Run2 q c).1.cleaning_inputs.head? = some (Val.vstr c) ∧
    (c3Run1 q c).1.ctx.cache = some { entries := [(get_cache_key (c3Run1 q c).1.ctx, c)] } ∧
    (c3Run2 q c).1.llm_calls = 1 := by
  have hc : (c == "") = false := beq_eq_false_iff_ne.mpr h
  rw [c3_run2_eq q c hc, c3_run1_eq]
  exact ⟨rfl, rfl, rfl, rfl, rfl, rfl⟩

theorem C3_cache_idempotence_witness :
    (c3Run2 "avg revenue" "df.mean()").1.ctx.get "found_in_cache" = Val.vbool true ∧
    (c3Run2 "avg revenue" "df.mean()").1.prompt_gen_calls
      = (c3Run1 "avg revenue" "df.mean()").1.prompt_gen_calls ∧
    (c3Run2 "avg revenue" "df.mean()").1.code_gen_calls
      = (c3Run1 "avg revenue" "df.mean()").1.code_gen_calls ∧
    (c3Run2 "avg revenue" "df.mean()").1.cleaning_inputs.head? = some (Val.vstr "df.mean()") ∧
    (c3Run1 "avg revenue" "df.mean()").1.ctx.cache
      = some { entries := [(get_cache_key (c3Run1 "avg revenue" "df.mean()").1.ctx, "df.mean()")] } ∧
    (c3Run2 "avg revenue" "df.mean()").1.llm_calls = 1 :=
  C3_cache_idempotence "avg revenue" "df.mean()" (by decide)

end MixAI
